import Mathlib

/-!
Verification development for the HTMLReader persistence and library layer.

The definitions below are shallow embeddings of the JavaScript source:
the IndexedDB wrapper (`indexedDB.js`), the library scanner and metadata
cache merger (`library.js`), and the reading-session controller
(`book.js`).  Tables of the embedded database are association lists keyed
by strings; JavaScript truthiness of optional fields is modelled
explicitly; asynchronous effects are modelled by explicit result records
(events performed, errors shown, records written).
-/

namespace HTMLReader

/-! ### IndexedDB object stores

An object store is an association list from keys to rows.  `idbPut`
follows IndexedDB `put` semantics: overwrite the row with the same key if
present, otherwise append.  `idbGet` returns the first row with the key,
`idbDelete` removes it.  The same semantics model a JavaScript `Map`
built with `Map.set` / read with `Map.get`. -/

def idbPut (k : String) (v : α) (tbl : List (String × α)) : List (String × α) :=
  if tbl.any (fun p => p.1 = k) then
    tbl.map (fun p => if p.1 = k then (k, v) else p)
  else
    tbl ++ [(k, v)]

def idbGet (k : String) (tbl : List (String × α)) : Option α :=
  (tbl.find? (fun p => p.1 = k)).map Prod.snd

def idbDelete (k : String) (tbl : List (String × α)) : List (String × α) :=
  tbl.filter (fun p => ¬ p.1 = k)

/-- Number of rows of the store that carry the key `k`. -/
def idbCountKey (k : String) (tbl : List (String × α)) : Nat :=
  (tbl.filter (fun p => p.1 = k)).length

theorem idbGet_put_self (k : String) (v : α) (tbl : List (String × α)) :
    idbGet k (idbPut k v tbl) = some v := by
  unfold idbPut idbGet
  by_cases h : tbl.any (fun p => p.1 = k)
  · simp only [h, if_true]
    induction tbl with
    | nil => simp at h
    | cons hd tl ih =>
      by_cases hk : hd.1 = k
      · simp [List.find?, hk]
      · simp only [List.any_cons] at h
        rcases Bool.or_eq_true_iff.mp h with h1 | h2
        · exact absurd (by simpa using h1) hk
        · simp only [List.map_cons, if_neg hk, List.find?]
          have : (decide (hd.1 = k)) = false := by simpa using hk
          simp only [this]
          exact ih h2
  · simp only [h, if_false]
    induction tbl with
    | nil => simp [List.find?]
    | cons hd tl ih =>
      simp only [List.any_cons, Bool.or_eq_true_iff, not_or] at h
      have hk : ¬ hd.1 = k := by simpa using h.1
      simp only [List.cons_append, List.find?]
      have : (decide (hd.1 = k)) = false := by simpa using hk
      simp only [this]
      exact ih (by simpa using h.2)

theorem filter_length_map_put (k : String) (v : α) (tbl : List (String × α)) :
    (List.filter (fun p => decide (p.1 = k))
        (tbl.map (fun p => if p.1 = k then (k, v) else p))).length
      = (tbl.filter (fun p => decide (p.1 = k))).length := by
  induction tbl with
  | nil => rfl
  | cons hd tl ih =>
    by_cases hk : hd.1 = k
    · simp [List.filter_cons, hk, ih]
    · simp [List.filter_cons, hk, ih]

theorem idbCountKey_put (k : String) (v : α) (tbl : List (String × α)) :
    idbCountKey k (idbPut k v tbl) = max 1 (idbCountKey k tbl) := by
  unfold idbPut idbCountKey
  by_cases h : tbl.any (fun p => p.1 = k)
  · rw [if_pos h, filter_length_map_put]
    rcases List.any_eq_true.mp h with ⟨p, hp, hpk⟩
    have hpos : 0 < (tbl.filter (fun p => decide (p.1 = k))).length :=
      List.length_pos_of_mem (List.mem_filter.mpr ⟨hp, hpk⟩)
    omega
  · have hzero : tbl.filter (fun p => decide (p.1 = k)) = [] := by
      rw [List.filter_eq_nil_iff]
      intro p hp
      simp only [List.any_eq_true, not_exists, not_and] at h
      exact h p hp
    rw [if_neg h, List.filter_append, hzero]
    simp

/-! ### JavaScript truthiness helpers

`x || d` in JavaScript falls back to `d` when `x` is absent
(`undefined`), the empty string, or the number `0`.  Arrays and objects
are always truthy. -/

def jsOrStr (v : Option String) (d : String) : String :=
  match v with
  | none => d
  | some s => if s = "" then d else s

def jsOrNat (v : Option Nat) (d : Nat) : Nat :=
  match v with
  | none => d
  | some n => if n = 0 then d else n

def jsOrInt (v : Option Int) (d : Int) : Int :=
  match v with
  | none => d
  | some n => if n = 0 then d else n

/-- `x || null` for an optional string: the empty string collapses to `null`. -/
def jsOrNull (v : Option String) : Option String :=
  match v with
  | none => none
  | some s => if s = "" then none else some s

/-- Truthiness of an optional string field (`undefined` and `""` are falsy). -/
def jsTruthyStr (v : Option String) : Bool :=
  match v with
  | none => false
  | some s => ¬ s = ""

/-! ### Book metadata records (`indexedDB.js`)

`MetaArg` is the argument object accepted by `storeBookMetadata`: every
field other than `path` may be absent (`none` models a missing /
`undefined` property).  `BookRecord` is the row actually written to the
`books` store.  `bookDataOf` is the normalisation performed at the top of
`storeBookMetadata`, with `now` standing for `Date.now()`. -/

structure MetaArg where
  path : String
  name : Option String := none
  title : Option String := none
  author : Option String := none
  coverUrl : Option String := none
  lastModified : Option Nat := none
  lastAccessed : Option Nat := none
  fileSize : Option Nat := none
  progress : Option Int := none
  currentCfi : Option String := none
  totalPages : Option Nat := none
  bookmarks : Option (List String) := none
  notes : Option (List String) := none
  settings : Option (List (String × String)) := none
deriving Repr, DecidableEq

structure BookRecord where
  path : String
  name : String
  title : String
  author : String
  coverUrl : Option String
  lastModified : Nat
  lastAccessed : Nat
  fileSize : Nat
  progress : Int
  currentCfi : String
  totalPages : Nat
  bookmarks : List String
  notes : List String
  settings : List (String × String)
  timestamp : Nat
deriving Repr, DecidableEq

def bookDataOf (m : MetaArg) (now : Nat) : BookRecord :=
  { path := m.path
    name := jsOrStr m.name ""
    title := jsOrStr m.title ""
    author := jsOrStr m.author ""
    coverUrl := jsOrNull m.coverUrl
    lastModified := jsOrNat m.lastModified 0
    lastAccessed := jsOrNat m.lastAccessed now
    fileSize := jsOrNat m.fileSize 0
    progress := jsOrInt m.progress 0
    currentCfi := jsOrStr m.currentCfi ""
    totalPages := jsOrNat m.totalPages 0
    bookmarks := m.bookmarks.getD []
    notes := m.notes.getD []
    settings := m.settings.getD []
    timestamp := now }

/-- `storeBookMetadata`: normalise the argument and `put` it into the
`books` store (key path `path`). -/
def storeBookMetadata (m : MetaArg) (now : Nat)
    (books : List (String × BookRecord)) : List (String × BookRecord) :=
  idbPut m.path (bookDataOf m now) books

/-- Row stored for the library handle (`handles` store, key path `name`). -/
structure HandleRow (H : Type) where
  name : String
  handle : H
  timestamp : Nat
deriving Repr, DecidableEq

/-- `storeLibraryHandle`: `put` the handle under the fixed key
`"library"`, or `delete` that row when called with `null`. -/
def storeLibraryHandle (h : Option H) (now : Nat)
    (handles : List (String × HandleRow H)) : List (String × HandleRow H) :=
  match h with
  | none => idbDelete "library" handles
  | some handle => idbPut "library" ⟨"library", handle, now⟩ handles

/-- The write performed by `openBookFromLibraryItem` (`library.js`) before
delegating to `openBookFromEntry`: a `storeBookMetadata` call whose
argument carries only `path` and `lastAccessed`. -/
def openBookFromLibraryItemWrite (path : String) (clickNow storeNow : Nat)
    (books : List (String × BookRecord)) : List (String × BookRecord) :=
  storeBookMetadata { path := path, lastAccessed := some clickNow } storeNow books

/-! ### Strings

ASCII case folding and suffix testing, modelling the JavaScript
`toLowerCase` / `endsWith` / `startsWith` calls of the scanner (the file
names of interest are ASCII). -/

def strLower (s : String) : String := ⟨s.data.map Char.toLower⟩

def strEndsWith (s suffixStr : String) : Bool := suffixStr.data.isSuffixOf s.data

def strStartsWith (s prefixStr : String) : Bool := prefixStr.data.isPrefixOf s.data

/-! ### Directory scanner (`scanDirectoryForEpubs`, `library.js`)

A filesystem is a finite graph: directory identifiers map to entry lists,
an entry being a file name or a named subdirectory reference.  Cycles are
representable.  `scanStep` is the body of the `for await` loop;
`scanDirGo` carries an explicit fuel so the recursion is structural — the
source bounds the traversal by `processedPaths.size < 50` (checked after
the current directory name was added), so fuel `51` is never exhausted
from any starting point; `scanDirGo_fuel_irrelevant` proves this.  The
second component of the result counts the directories actually entered
(those that passed the cycle check). -/

inductive FsEntry where
  | file : String → FsEntry
  | dir : String → Nat → FsEntry
deriving DecidableEq, Repr

abbrev FsEnv := List (Nat × List FsEntry)

def fsEntries (env : FsEnv) (id : Nat) : List FsEntry :=
  ((env.find? (fun p => p.1 = id)).map Prod.snd).getD []

structure FileRec where
  name : String
  path : String
deriving DecidableEq, Repr

def scanStep (recur : String → Nat → List String → List FileRec × Nat)
    (dirName : String) (processed : List String) (e : FsEntry) : List FileRec × Nat :=
  match e with
  | .file name =>
    if strEndsWith (strLower name) ".epub" then
      (([⟨name, dirName ++ "/" ++ name⟩] : List FileRec), 0)
    else ([], 0)
  | .dir name childId =>
    if strStartsWith name "." then ([], 0)
    else if processed.length < 50 then recur name childId processed
    else ([], 0)

def scanDirGo (env : FsEnv) : Nat → String → Nat → List String → List FileRec × Nat
  | 0, _, _, _ => ([], 0)
  | fuel + 1, dirName, dirId, processedPaths =>
    if processedPaths.contains dirName then ([], 0)
    else
      let processed := dirName :: processedPaths
      let results := (fsEntries env dirId).map
        (scanStep (scanDirGo env fuel) dirName processed)
      let folded := results.foldr (fun a b => (a.1 ++ b.1, a.2 + b.2)) ([], 0)
      (folded.1, folded.2 + 1)

def scanDirectoryForEpubs (env : FsEnv) (dirName : String) (dirId : Nat)
    (processedPaths : List String) : List FileRec × Nat :=
  scanDirGo env 51 dirName dirId processedPaths

theorem scanStep_congr (r₁ r₂ : String → Nat → List String → List FileRec × Nat)
    (dirName : String) (processed : List String) (e : FsEntry)
    (h : ∀ n cid, processed.length < 50 → r₁ n cid processed = r₂ n cid processed) :
    scanStep r₁ dirName processed e = scanStep r₂ dirName processed e := by
  match e with
  | .file name => rfl
  | .dir name childId =>
    by_cases hs : strStartsWith name "."
    · simp [scanStep, hs]
    · by_cases hlen : processed.length < 50
      · simp [scanStep, hs, hlen, h name childId hlen]
      · simp [scanStep, hs, hlen]

theorem scanDirGo_fuel_irrelevant (env : FsEnv) :
    ∀ fuel fuel' (dirName : String) (dirId : Nat) (p : List String),
      1 ≤ fuel → 1 ≤ fuel' → 50 ≤ fuel + p.length → 50 ≤ fuel' + p.length →
      scanDirGo env fuel dirName dirId p = scanDirGo env fuel' dirName dirId p := by
  intro fuel
  induction fuel with
  | zero => intro fuel' dirName dirId p h1; omega
  | succ f ih =>
    intro fuel' dirName dirId p _ h2 h3 h4
    match fuel' with
    | g + 1 =>
      by_cases hc : p.contains dirName
      · have hm : dirName ∈ p := by simpa using hc
        simp [scanDirGo, hm]
      · simp only [scanDirGo, hc, Bool.false_eq_true, if_false]
        have hmap : (fsEntries env dirId).map
              (scanStep (scanDirGo env f) dirName (dirName :: p))
            = (fsEntries env dirId).map
              (scanStep (scanDirGo env g) dirName (dirName :: p)) := by
          apply List.map_congr_left
          intro e _
          apply scanStep_congr
          intro n cid hlen
          simp only [List.length_cons] at hlen
          apply ih
          · omega
          · omega
          · simp only [List.length_cons]; omega
          · simp only [List.length_cons]; omega
        rw [hmap]

/-! Concrete directory structures used to exercise the scanner. -/

def flatEnv : FsEnv := [(0, [.file "a.epub", .file "notes.txt", .file "b.EPUB"])]

def hiddenEnv : FsEnv :=
  [(0, [.file "a.epub", .dir ".hidden" 1]), (1, [.file "secret.epub"])]

/-- Two directories referring to each other: a cyclic structure. -/
def cycEnv : FsEnv := [(0, [.file "a.epub", .dir "b" 1]), (1, [.file "c.epub", .dir "a" 0])]

/-- A root with 60 sibling subdirectories, one e-book in each. -/
def wideEnv : FsEnv :=
  (0, (List.range 60).map (fun i => FsEntry.dir (String.mk ('d' :: (Nat.toDigits 10 i))) (i + 1)))
    :: (List.range 60).map (fun i => (i + 1, [FsEntry.file "x.epub"]))

/-- A chain of 60 nested directories, one e-book in each. -/
def chainEnv : FsEnv :=
  (List.range 60).map (fun i =>
    (i, [FsEntry.file "x.epub", FsEntry.dir (String.mk ('d' :: (Nat.toDigits 10 (i + 1)))) (i + 1)]))

/-- The inline filter of the plain `openLibrary` (`library.js`): a flat,
non-recursive pass over the chosen directory keeping file entries whose
name ends with `.epub` (case-sensitive `String.endsWith`). -/
def openLibraryFlatScan (entries : List FsEntry) : List FsEntry :=
  entries.filter (fun e =>
    match e with
    | .file name => strEndsWith name ".epub"
    | .dir _ _ => false)

/-! ### Metadata cache merger (`mergeFilesWithMetadata`, `library.js`)

A scanned file enters the merge together with the result of
`file.handle.getFile()`: `some lm` is a file reporting `lastModified =
lm`, `none` models the call throwing.  The cached books are indexed by
`path` with `Map.set` semantics (`cachedMapOf`).  A hit spreads the
cached record over the file descriptor and sets `cached: true`; a miss
carries no metadata fields (they are `undefined` in the source). -/

structure MergeInput where
  file : FileRec
  getFileResult : Option Nat
deriving DecidableEq, Repr

structure MergedEntry where
  name : String
  path : String
  title : Option String
  author : Option String
  coverUrl : Option String
  progress : Option Int
  lastModifiedMeta : Option Nat
  lastAccessed : Option Nat
  cached : Bool
deriving DecidableEq, Repr

def hitEntry (c : BookRecord) : MergedEntry :=
  { name := c.name
    path := c.path
    title := some c.title
    author := some c.author
    coverUrl := c.coverUrl
    progress := some c.progress
    lastModifiedMeta := some c.lastModified
    lastAccessed := some c.lastAccessed
    cached := true }

def missEntry (f : FileRec) : MergedEntry :=
  { name := f.name
    path := f.path
    title := none
    author := none
    coverUrl := none
    progress := none
    lastModifiedMeta := none
    lastAccessed := none
    cached := false }

def cachedMapOf (cachedBooks : List BookRecord) : List (String × BookRecord) :=
  cachedBooks.foldl (fun m b => idbPut b.path b m) []

def mergeOne (cachedMap : List (String × BookRecord)) (inp : MergeInput) : MergedEntry :=
  match idbGet inp.file.path cachedMap with
  | some c =>
    if ¬ c.lastModified = 0 then
      match inp.getFileResult with
      | some lm => if lm = c.lastModified then hitEntry c else missEntry inp.file
      | none => missEntry inp.file
    else missEntry inp.file
  | none => missEntry inp.file

def mergeFilesWithMetadata (files : List MergeInput) (cachedBooks : List BookRecord) :
    List MergedEntry :=
  files.map (mergeOne (cachedMapOf cachedBooks))

/-! ### Per-entry metadata loading (`loadItemMetadata`, `library.js`)

`ItemEnv` supplies the outcomes of the suspension points:
`getFileFromEntry` (`none` models a `null` result) and the archive parse
(`none` models `ePub`/`ready`/`loaded.metadata` throwing after the parser
was invoked).  The result records how many times the archive parser ran,
the `storeBookMetadata` writes performed, and the UI fields shown. -/

structure LiveFile where
  lastModified : Nat
  size : Nat
deriving DecidableEq, Repr

structure ParsedMeta where
  title : Option String
  creator : Option String
  cover : Option String
deriving DecidableEq, Repr

structure ItemEnv where
  getFile : Option LiveFile
  parse : Option ParsedMeta
deriving DecidableEq, Repr

/-- Stands for the inline placeholder SVG data URI assigned to `img.src`
by `createLibraryItem` before metadata is loaded. -/
def defaultCoverDataUri : String := "data:image/svg+xml,placeholder-book"

structure ItemResult where
  parserCalls : Nat
  writes : List MetaArg
  shownTitle : String
  shownAuthor : Option String
  shownCover : String
deriving DecidableEq, Repr

def loadItemMetadata (entry : MergedEntry) (env : ItemEnv) : ItemResult :=
  let title0 := jsOrStr (some entry.name) "Unknown Title"
  if entry.cached && jsTruthyStr entry.title then
    { parserCalls := 0
      writes := []
      shownTitle := entry.title.getD ""
      shownAuthor := if jsTruthyStr entry.author then entry.author else none
      shownCover := if jsTruthyStr entry.coverUrl then entry.coverUrl.getD "" else defaultCoverDataUri }
  else
    match env.getFile with
    | none =>
      { parserCalls := 0, writes := [], shownTitle := title0
        shownAuthor := none, shownCover := defaultCoverDataUri }
    | some file =>
      match env.parse with
      | none =>
        { parserCalls := 1, writes := [], shownTitle := title0
          shownAuthor := none, shownCover := defaultCoverDataUri }
      | some meta =>
        let shownTitle := if jsTruthyStr meta.title then meta.title.getD "" else title0
        let shownAuthor := if jsTruthyStr meta.creator then meta.creator else none
        let imgSrc := match meta.cover with
          | some c => c
          | none => defaultCoverDataUri
        let arg : MetaArg :=
          { path := jsOrStr (some entry.path) entry.name
            name := some entry.name
            title := some (jsOrStr meta.title entry.name)
            author := some (jsOrStr meta.creator "")
            coverUrl := some imgSrc
            lastModified := some file.lastModified
            fileSize := some file.size }
        { parserCalls := 1, writes := [arg], shownTitle := shownTitle
          shownAuthor := shownAuthor, shownCover := imgSrc }

/-! ### Transaction wrapper (`executeTransaction`, `indexedDB.js`)

The source loops `attempt = 1..3`; inside the loop it `await`s `getDB()`
and then `return`s (without `await`) the promise wrapping the
transaction.  Consequently only a failing `getDB()` is caught by the
`try`/`catch` and retried with a `attempt * 100` ms backoff; once the
promise for the transaction itself is returned, its rejection propagates
to the caller directly.  `openResult` gives the outcome of `getDB()` per
attempt, `txResult` the outcome of the transaction promise, and
`fallbackErr` stands for the `new Error` thrown when the loop ends with
no recorded error. -/

structure TxEnv (ε α : Type) where
  openResult : Nat → Except ε Unit
  txResult : Except ε α
  fallbackErr : ε

structure TxTrace (ε α : Type) where
  result : Except ε α
  openCalls : Nat
  txRuns : Nat
  delaysMs : List Nat
deriving Repr

def executeTransactionGo (env : TxEnv ε α) :
    List Nat → Option ε → Nat → List Nat → TxTrace ε α
  | [], lastError, opens, delays =>
    { result := .error (lastError.getD env.fallbackErr)
      openCalls := opens, txRuns := 0, delaysMs := delays }
  | attempt :: rest, _, opens, delays =>
    match env.openResult attempt with
    | .error e =>
      if rest.isEmpty then
        executeTransactionGo env rest (some e) (opens + 1) delays
      else
        executeTransactionGo env rest (some e) (opens + 1) (delays ++ [attempt * 100])
    | .ok _ =>
      { result := env.txResult, openCalls := opens + 1, txRuns := 1, delaysMs := delays }

def executeTransaction (env : TxEnv ε α) : TxTrace ε α :=
  executeTransactionGo env [1, 2, 3] none 0 []

/-- A run in which the database opens fine on the first attempt but the
transaction itself fails (e.g. the connection closes mid-operation). -/
def txFailEnv : TxEnv String Unit :=
  { openResult := fun _ => .ok ()
    txResult := .error "connection closed mid-operation"
    fallbackErr := "Database operation failed after retries" }

/-- A run in which every `getDB()` call fails. -/
def openFailEnv : TxEnv String Unit :=
  { openResult := fun _ => .error "db open failed"
    txResult := .ok ()
    fallbackErr := "Database operation failed after retries" }

/-- Claim C2 (code bug): the retry loop is meant to retry transient
failures of the whole operation — its own log lines speak of transaction
errors `on attempt N` — but because the transaction promise is returned
without being awaited inside the `try`, a failure of the transaction
itself is surfaced immediately after a single run: no second attempt, no
backoff.  Only the `getDB()` open step is actually retried (3 attempts,
linear 100 ms backoff, last error surfaced). -/
theorem executeTransaction_retries_only_db_open :
    (executeTransaction txFailEnv).txRuns = 1 ∧
    (executeTransaction txFailEnv).result = .error "connection closed mid-operation" ∧
    (executeTransaction txFailEnv).openCalls = 1 ∧
    (executeTransaction txFailEnv).delaysMs = [] ∧
    (executeTransaction openFailEnv).openCalls = 3 ∧
    (executeTransaction openFailEnv).delaysMs = [100, 200] ∧
    (executeTransaction openFailEnv).result = .error "db open failed" ∧
    (executeTransaction openFailEnv).txRuns = 0 := by
  refine ⟨?_, ?_, ?_, ?_, ?_, ?_, ?_, ?_⟩ <;> rfl

theorem idbCountKey_pos_of_get (k : String) (tbl : List (String × α)) (r : α)
    (h : idbGet k tbl = some r) : 1 ≤ idbCountKey k tbl := by
  unfold idbGet at h
  unfold idbCountKey
  match hf : tbl.find? (fun p => p.1 = k) with
  | none => rw [hf] at h; simp at h
  | some q =>
    have hq := List.find?_some hf
    have hmem := List.mem_of_find?_eq_some hf
    exact List.length_pos_of_mem (List.mem_filter.mpr ⟨hmem, hq⟩)

/-- Claim C5: `put` is keyed, so repeated stores collapse to a single
row.  Storing the library handle twice leaves exactly one row keyed
`"library"`, holding the handle with the second write's timestamp;
storing book metadata twice for one `path` leaves exactly one row whose
fields are the normalisation of the later argument. -/
theorem puts_last_write_wins (H : Type) [DecidableEq H] (h : H) (t1 t2 : Nat)
    (handles : List (String × HandleRow H))
    (hch : idbCountKey "library" handles ≤ 1)
    (m1 m2 : MetaArg) (now1 now2 : Nat) (books : List (String × BookRecord))
    (hpath : m1.path = m2.path)
    (hcb : idbCountKey m2.path books ≤ 1) :
    idbCountKey "library"
        (storeLibraryHandle (some h) t2 (storeLibraryHandle (some h) t1 handles)) = 1 ∧
    idbGet "library"
        (storeLibraryHandle (some h) t2 (storeLibraryHandle (some h) t1 handles))
      = some ⟨"library", h, t2⟩ ∧
    idbCountKey m2.path (storeBookMetadata m2 now2 (storeBookMetadata m1 now1 books)) = 1 ∧
    idbGet m2.path (storeBookMetadata m2 now2 (storeBookMetadata m1 now1 books))
      = some (bookDataOf m2 now2) := by
  refine ⟨?_, ?_, ?_, ?_⟩
  · unfold storeLibraryHandle
    rw [idbCountKey_put, idbCountKey_put]
    omega
  · unfold storeLibraryHandle
    exact idbGet_put_self _ _ _
  · unfold storeBookMetadata
    rw [idbCountKey_put, hpath, idbCountKey_put]
    omega
  · unfold storeBookMetadata
    exact idbGet_put_self _ _ _

theorem puts_last_write_wins_witness :
    idbCountKey "library"
        (storeLibraryHandle (some 7) 20 (storeLibraryHandle (some 7) 10
          ([] : List (String × HandleRow Nat)))) = 1 ∧
    idbGet "library"
        (storeLibraryHandle (some 7) 20 (storeLibraryHandle (some 7) 10
          ([] : List (String × HandleRow Nat))))
      = some ⟨"library", 7, 20⟩ ∧
    idbCountKey "lib/a.epub"
        (storeBookMetadata { path := "lib/a.epub", title := some "New" } 2
          (storeBookMetadata { path := "lib/a.epub", title := some "Old" } 1 [])) = 1 ∧
    idbGet "lib/a.epub"
        (storeBookMetadata { path := "lib/a.epub", title := some "New" } 2
          (storeBookMetadata { path := "lib/a.epub", title := some "Old" } 1 []))
      = some (bookDataOf { path := "lib/a.epub", title := some "New" } 2) :=
  puts_last_write_wins Nat 7 10 20 [] (by decide)
    { path := "lib/a.epub", title := some "Old" }
    { path := "lib/a.epub", title := some "New" } 1 2 [] (by decide) (by decide)

/-- Claim C10: `storeBookMetadata` always writes a complete row computed
from its argument alone — every absent field becomes a fixed default
(empty string, `0`, `null`, empty array, the current time), never a value
preserved from the row previously stored at the same path.  Hence the
partial write of `openBookFromLibraryItem` (argument carrying only `path`
and `lastAccessed`) replaces a cached row by one whose title, author,
cover, lastModified and progress are those defaults. -/
theorem storeBookMetadata_overwrites_with_defaults
    (books : List (String × BookRecord)) (r : BookRecord) (p : String)
    (clickNow storeNow : Nat)
    (hget : idbGet p books = some r) (hcount : idbCountKey p books ≤ 1)
    (hclick : ¬ clickNow = 0) :
    (∀ (m : MetaArg) (now : Nat) (tbl : List (String × BookRecord)),
        idbGet m.path (storeBookMetadata m now tbl) = some (bookDataOf m now)) ∧
    idbGet p (openBookFromLibraryItemWrite p clickNow storeNow books) = some
      { path := p, name := "", title := "", author := "", coverUrl := none,
        lastModified := 0, lastAccessed := clickNow, fileSize := 0, progress := 0,
        currentCfi := "", totalPages := 0, bookmarks := [], notes := [],
        settings := [], timestamp := storeNow } ∧
    idbCountKey p (openBookFromLibraryItemWrite p clickNow storeNow books) = 1 := by
  refine ⟨?_, ?_, ?_⟩
  · intro m now tbl
    exact idbGet_put_self _ _ _
  · unfold openBookFromLibraryItemWrite storeBookMetadata
    rw [idbGet_put_self]
    simp [bookDataOf, jsOrStr, jsOrNat, jsOrInt, jsOrNull, hclick]
  · unfold openBookFromLibraryItemWrite storeBookMetadata
    rw [idbCountKey_put]
    have := idbCountKey_pos_of_get p books r hget
    omega

/-- A rich cached row, as the metadata loader would have produced it. -/
def richCachedRecord : BookRecord :=
  { path := "lib/b.epub", name := "b.epub", title := "Cached Title"
    author := "Cached Author", coverUrl := some "blob:cover"
    lastModified := 42, lastAccessed := 9, fileSize := 1000, progress := 1
    currentCfi := "epubcfi(/6/4)", totalPages := 12, bookmarks := ["bm"]
    notes := [], settings := [], timestamp := 9 }

theorem storeBookMetadata_overwrites_with_defaults_witness :
    (∀ (m : MetaArg) (now : Nat) (tbl : List (String × BookRecord)),
        idbGet m.path (storeBookMetadata m now tbl) = some (bookDataOf m now)) ∧
    idbGet "lib/b.epub"
        (openBookFromLibraryItemWrite "lib/b.epub" 5 6 [("lib/b.epub", richCachedRecord)])
      = some
      { path := "lib/b.epub", name := "", title := "", author := "", coverUrl := none,
        lastModified := 0, lastAccessed := 5, fileSize := 0, progress := 0,
        currentCfi := "", totalPages := 0, bookmarks := [], notes := [],
        settings := [], timestamp := 6 } ∧
    idbCountKey "lib/b.epub"
        (openBookFromLibraryItemWrite "lib/b.epub" 5 6 [("lib/b.epub", richCachedRecord)]) = 1 :=
  storeBookMetadata_overwrites_with_defaults
    [("lib/b.epub", richCachedRecord)] richCachedRecord "lib/b.epub" 5 6
    (by decide) (by decide) (by decide)

/-- Claim C1 (amended): the merge marks a descriptor a cache-hit exactly
when a cached record exists for its path, that record stores a nonzero
(truthy) `lastModified`, and the live file reports the same timestamp; on
a hit the cached fields are attached.  A hit whose cached title is
nonempty makes `loadItemMetadata` skip the archive parser and write
nothing; a miss with a readable file and a successful parse invokes the
parser exactly once and writes exactly one fresh record back. -/
theorem merge_cache_hit_and_parser_invocations :
    (∀ (cachedMap : List (String × BookRecord)) (inp : MergeInput),
        (mergeOne cachedMap inp).cached = true
          ↔ ∃ c, idbGet inp.file.path cachedMap = some c ∧ ¬ c.lastModified = 0 ∧
              inp.getFileResult = some c.lastModified) ∧
    (∀ (cachedMap : List (String × BookRecord)) (inp : MergeInput) (c : BookRecord),
        idbGet inp.file.path cachedMap = some c → ¬ c.lastModified = 0 →
        inp.getFileResult = some c.lastModified →
        mergeOne cachedMap inp = hitEntry c) ∧
    (∀ (entry : MergedEntry) (env : ItemEnv),
        entry.cached = true → jsTruthyStr entry.title = true →
        (loadItemMetadata entry env).parserCalls = 0 ∧
        (loadItemMetadata entry env).writes = []) ∧
    (∀ (f : FileRec) (env : ItemEnv) (file : LiveFile) (meta : ParsedMeta),
        env.getFile = some file → env.parse = some meta →
        (loadItemMetadata (missEntry f) env).parserCalls = 1 ∧
        (loadItemMetadata (missEntry f) env).writes.length = 1) := by
  refine ⟨?_, ?_, ?_, ?_⟩
  · intro cachedMap inp
    unfold mergeOne
    match hg : idbGet inp.file.path cachedMap with
    | none => simp [missEntry]
    | some c =>
      by_cases hlm : c.lastModified = 0
      · simp [hlm, missEntry]
      · match hf : inp.getFileResult with
        | none => simp [hlm, hf, missEntry]
        | some lm =>
          by_cases heq : lm = c.lastModified
          · simp [hlm, hf, heq, hitEntry]
          · simp [hlm, hf, heq, missEntry]
  · intro cachedMap inp c hg hlm hf
    unfold mergeOne
    rw [hg]
    simp [hlm, hf]
  · intro entry env h1 h2
    unfold loadItemMetadata
    simp [h1, h2]
  · intro f env file meta hgf hp
    rcases env with ⟨gf, pr⟩
    simp only at hgf hp
    subst hgf
    subst hp
    simp [loadItemMetadata, missEntry]

theorem merge_cache_hit_and_parser_invocations_witness :
    mergeOne (cachedMapOf [richCachedRecord])
        { file := { name := "b.epub", path := "lib/b.epub" }, getFileResult := some 42 }
      = hitEntry richCachedRecord ∧
    (loadItemMetadata (hitEntry richCachedRecord)
        { getFile := none, parse := none }).parserCalls = 0 ∧
    (loadItemMetadata (missEntry { name := "b.epub", path := "lib/b.epub" })
        { getFile := some { lastModified := 42, size := 7 },
          parse := some { title := some "T", creator := none, cover := none } }).parserCalls = 1 := by
  refine ⟨?_, ?_, ?_⟩
  · exact merge_cache_hit_and_parser_invocations.2.1 (cachedMapOf [richCachedRecord])
      { file := { name := "b.epub", path := "lib/b.epub" }, getFileResult := some 42 }
      richCachedRecord (by decide) (by decide) (by decide)
  · exact (merge_cache_hit_and_parser_invocations.2.2.1 (hitEntry richCachedRecord)
      { getFile := none, parse := none } (by decide) (by decide)).1
  · exact (merge_cache_hit_and_parser_invocations.2.2.2
      { name := "b.epub", path := "lib/b.epub" }
      { getFile := some { lastModified := 42, size := 7 },
        parse := some { title := some "T", creator := none, cover := none } }
      { lastModified := 42, size := 7 }
      { title := some "T", creator := none, cover := none } rfl rfl).1

/-- A scanned file whose live `lastModified` is `0`, matching a cached
record that also stores `lastModified = 0`. -/
def cxFile : MergeInput :=
  { file := { name := "a.epub", path := "lib/a.epub" }, getFileResult := some 0 }

def cxCached : BookRecord :=
  { path := "lib/a.epub", name := "a.epub", title := "A Book", author := "A"
    coverUrl := none, lastModified := 0, lastAccessed := 7, fileSize := 3
    progress := 0, currentCfi := "", totalPages := 9, bookmarks := []
    notes := [], settings := [], timestamp := 7 }

/-- Counterexample to claim C1 as stated: a cached record exists for the
path and the live file reports exactly the stored `lastModified` (both
are `0`), yet the merge marks the descriptor a cache-miss, because the
source additionally requires the stored timestamp to be truthy. -/
theorem merge_zero_timestamp_cache_miss :
    idbGet cxFile.file.path (cachedMapOf [cxCached]) = some cxCached ∧
    cxFile.getFileResult = some cxCached.lastModified ∧
    (mergeFilesWithMetadata [cxFile] [cxCached]).map (fun e => e.cached) = [false] := by
  refine ⟨?_, ?_, ?_⟩ <;> decide

/-- Claim C3 (amended): the scan of any directory structure — cyclic ones
included — terminates: from any starting point every fuel of at least 51
computes the same result (the recursion stabilises), because directory
names visited along the current traversal path short-circuit cycles and
descent is refused once the current path holds 50 directories.  That
`50`-limit is a bound on the traversal path (an effective recursion-depth
bound), not a total-visit budget; when the path bound prunes the
traversal, the partial results gathered so far are still returned (49 of
the 60 chained directories below the root are entered, and their files
are returned). -/
theorem scan_terminates_with_path_bound :
    (∀ (env : FsEnv) (fuel : Nat) (dirName : String) (dirId : Nat) (p : List String),
        51 ≤ fuel →
        scanDirGo env fuel dirName dirId p = scanDirectoryForEpubs env dirName dirId p) ∧
    (∀ (env : FsEnv) (dirName : String) (dirId : Nat) (p : List String),
        p.contains dirName = true →
        scanDirectoryForEpubs env dirName dirId p = ([], 0)) ∧
    scanDirectoryForEpubs cycEnv "a" 0 [] =
      ([⟨"a.epub", "a/a.epub"⟩, ⟨"c.epub", "b/c.epub"⟩], 2) ∧
    chainEnv.length = 60 ∧
    (scanDirectoryForEpubs chainEnv "d0" 0 []).1.length = 50 ∧
    (scanDirectoryForEpubs chainEnv "d0" 0 []).2 = 50 := by
  refine ⟨?_, ?_, ?_, ?_, ?_, ?_⟩
  · intro env fuel dirName dirId p hfuel
    unfold scanDirectoryForEpubs
    apply scanDirGo_fuel_irrelevant <;> omega
  · intro env dirName dirId p hc
    have hm : dirName ∈ p := by simpa using hc
    simp [scanDirectoryForEpubs, scanDirGo, hm]
  · decide
  · decide
  · set_option maxRecDepth 4000 in decide
  · set_option maxRecDepth 4000 in decide

theorem scan_terminates_with_path_bound_witness :
    scanDirGo ([] : FsEnv) 60 "a" 0 [] = scanDirectoryForEpubs ([] : FsEnv) "a" 0 [] ∧
    scanDirectoryForEpubs ([] : FsEnv) "a" 0 ["a"] = ([], 0) :=
  ⟨scan_terminates_with_path_bound.1 [] 60 "a" 0 [] (by decide),
   scan_terminates_with_path_bound.2.1 [] "a" 0 ["a"] (by decide)⟩

/-- Counterexample to claim C3 as stated: the source enforces no maximum
on the *total* number of directories visited.  On a root with 60 sibling
subdirectories the scan enters 61 directories — beyond any 50-directory
budget — and descends into every one of them, returning all 60 files
instead of stopping once a visit budget is exhausted. -/
theorem scan_total_visit_budget_not_enforced :
    (scanDirectoryForEpubs wideEnv "root" 0 []).2 = 61 ∧
    50 < (scanDirectoryForEpubs wideEnv "root" 0 []).2 ∧
    (scanDirectoryForEpubs wideEnv "root" 0 []).1.length = 60 := by
  refine ⟨?_, ?_, ?_⟩ <;> decide

/-- Claim C4 (amended): the recursive scanner `scanDirectoryForEpubs`
matches the `.epub` extension case-insensitively and skips hidden
directories: on a directory holding exactly `a.epub`, `notes.txt` and
`b.EPUB` it yields exactly the two descriptors `a.epub` and `b.EPUB`,
with `notes.txt` excluded, and a directory named `.hidden` is never
entered. -/
theorem scan_mixed_files_case_insensitive :
    (scanDirectoryForEpubs flatEnv "root" 0 []).1 =
      [⟨"a.epub", "root/a.epub"⟩, ⟨"b.EPUB", "root/b.EPUB"⟩] ∧
    (scanDirectoryForEpubs flatEnv "root" 0 []).1.length = 2 ∧
    (scanDirectoryForEpubs hiddenEnv "root" 0 []).1 = [⟨"a.epub", "root/a.epub"⟩] ∧
    (scanDirectoryForEpubs hiddenEnv "root" 0 []).2 = 1 := by
  refine ⟨?_, ?_, ?_, ?_⟩ <;> decide

/-- Counterexample to claim C4 as stated: the flat scan inside the plain
`openLibrary` filters with a case-sensitive `endsWith(".epub")`, so the
same directory contents yield only one descriptor there — `b.EPUB` is
excluded along with `notes.txt`. -/
theorem openLibrary_flat_filter_case_sensitive :
    openLibraryFlatScan [.file "a.epub", .file "notes.txt", .file "b.EPUB"]
      = [.file "a.epub"] ∧
    ¬ (openLibraryFlatScan [.file "a.epub", .file "notes.txt", .file "b.EPUB"]).length = 2 := by
  refine ⟨?_, ?_⟩ <;> decide

/-! ### Opening the library (`openLibrary`, `library.js`)

Two revisions of `openLibrary` are embedded.  `openLibrary` is the
feature-rich one: it re-validates permissions on a stored handle, clears
the handle on a denied re-request, and scans recursively with
`scanDirectoryForEpubs` followed by the cache merge.  `openLibraryMid` is
the earlier one: its permission check throws into its own `catch` (which
only shows the failure banner, leaving the stored handle in place), and
its scan is the flat case-sensitive filter.  `LibraryEnv` fixes the
outcomes of the host interactions: picker availability and result, the
filesystem, the cached books, and the per-path `getFile()` results. -/

inductive Perm where
  | granted
  | denied
  | prompt
deriving DecidableEq, Repr

structure DirHandleM where
  name : String
  id : Nat
  hasPermissionApi : Bool
  queryPerm : Perm
  requestPerm : Perm
deriving DecidableEq, Repr

inductive PickerOutcome where
  | ok (h : DirHandleM)
  | abortError
  | otherError (msg : String)
deriving DecidableEq, Repr

/-- Message of a directory-picker `AbortError` (user cancelled). -/
def abortMessage : String := "The user aborted a request."

structure LibraryEnv where
  pickerAvailable : Bool
  pickerOutcome : PickerOutcome
  fsEnv : FsEnv
  cachedBooks : List BookRecord
  liveLm : String → Option Nat

structure OpenLibraryOutcome where
  storedAfter : Option DirHandleM
  promptShown : Bool
  fallbackInputClicked : Bool
  scanPerformed : Bool
  merged : List MergedEntry
  flatFiles : List FsEntry := []
  errorShown : Option String
  successShown : Option String
  libraryOpened : Bool
deriving DecidableEq, Repr

/-- Permission re-check, scan and merge of the feature-rich `openLibrary`
once a directory handle is at hand.  `storedNow` is the content of the
`handles` slot at this point, `prompted`/`successMsg` record whether the
picker ran and the banner it produced. -/
def openLibraryWithHandle (h : DirHandleM) (storedNow : Option DirHandleM)
    (prompted : Bool) (successMsg : Option String) (env : LibraryEnv) :
    OpenLibraryOutcome :=
  if h.hasPermissionApi &&
      (¬ h.queryPerm = Perm.granted : Bool) && (¬ h.requestPerm = Perm.granted : Bool) then
    { storedAfter := none
      promptShown := prompted
      fallbackInputClicked := false
      scanPerformed := false
      merged := []
      errorShown := some "Permission denied for library folder. Please select the folder again."
      successShown := successMsg
      libraryOpened := false }
  else
    let files := (scanDirectoryForEpubs env.fsEnv h.name h.id []).1
    let inputs := files.map (fun f => ({ file := f, getFileResult := env.liveLm f.path } : MergeInput))
    { storedAfter := storedNow
      promptShown := prompted
      fallbackInputClicked := false
      scanPerformed := true
      merged := mergeFilesWithMetadata inputs env.cachedBooks
      errorShown := none
      successShown := successMsg
      libraryOpened := true }

def openLibrary (stored : Option DirHandleM) (env : LibraryEnv) : OpenLibraryOutcome :=
  match stored with
  | some h => openLibraryWithHandle h (some h) false none env
  | none =>
    if ¬ env.pickerAvailable then
      { storedAfter := none, promptShown := false, fallbackInputClicked := true
        scanPerformed := false, merged := [], errorShown := none
        successShown := none, libraryOpened := false }
    else
      match env.pickerOutcome with
      | .abortError =>
        { storedAfter := none, promptShown := true, fallbackInputClicked := false
          scanPerformed := false, merged := [], errorShown := none
          successShown := none, libraryOpened := false }
      | .otherError msg =>
        { storedAfter := none, promptShown := true, fallbackInputClicked := false
          scanPerformed := false, merged := []
          errorShown := some ("Failed to open library: " ++ msg)
          successShown := none, libraryOpened := false }
      | .ok h =>
        openLibraryWithHandle h (some h) true
          (some "Library folder selected and saved!") env

/-- Flat scan and permission check of the earlier `openLibrary` revision:
a denied re-request throws, the surrounding `catch` shows the failure
banner, and the stored handle is left untouched. -/
def openLibraryMidWithHandle (h : DirHandleM) (storedNow : Option DirHandleM)
    (prompted : Bool) (env : LibraryEnv) : OpenLibraryOutcome :=
  if h.hasPermissionApi &&
      (¬ h.queryPerm = Perm.granted : Bool) && (¬ h.requestPerm = Perm.granted : Bool) then
    { storedAfter := storedNow
      promptShown := prompted
      fallbackInputClicked := false
      scanPerformed := false
      merged := []
      errorShown :=
        some "Failed to open library: Read permission was denied for the library directory."
      successShown := none
      libraryOpened := false }
  else
    { storedAfter := storedNow
      promptShown := prompted
      fallbackInputClicked := false
      scanPerformed := true
      merged := []
      flatFiles := openLibraryFlatScan (fsEntries env.fsEnv h.id)
      errorShown := none
      successShown := none
      libraryOpened := true }

def openLibraryMid (stored : Option DirHandleM) (env : LibraryEnv) : OpenLibraryOutcome :=
  match stored with
  | some h => openLibraryMidWithHandle h (some h) false env
  | none =>
    if ¬ env.pickerAvailable then
      { storedAfter := none, promptShown := false, fallbackInputClicked := true
        scanPerformed := false, merged := [], errorShown := none
        successShown := none, libraryOpened := false }
    else
      match env.pickerOutcome with
      | .ok h => openLibraryMidWithHandle h (some h) true env
      | .abortError =>
        { storedAfter := none, promptShown := true, fallbackInputClicked := false
          scanPerformed := false, merged := []
          errorShown := some ("Failed to open library: " ++ abortMessage)
          successShown := none, libraryOpened := false }
      | .otherError msg =>
        { storedAfter := none, promptShown := true, fallbackInputClicked := false
          scanPerformed := false, merged := []
          errorShown := some ("Failed to open library: " ++ msg)
          successShown := none, libraryOpened := false }

/-- Claim C6 (amended): in the feature-rich `openLibrary`, a stored
handle whose permission re-check and re-request are both non-granted
produces no scan, a user-visible permission error, and the stored handle
is cleared, all without crashing; the next attempt then runs against an
empty slot and takes the prompt path — the directory picker when
available, the flat multi-file input otherwise.  (The earlier revision
behaves differently; see the counterexample.) -/
theorem permission_denied_recovery (h : DirHandleM) (env : LibraryEnv)
    (hapi : h.hasPermissionApi = true)
    (hq : ¬ h.queryPerm = Perm.granted) (hr : ¬ h.requestPerm = Perm.granted) :
    (openLibrary (some h) env).scanPerformed = false ∧
    (openLibrary (some h) env).storedAfter = none ∧
    (openLibrary (some h) env).errorShown =
      some "Permission denied for library folder. Please select the folder again." ∧
    (env.pickerAvailable = true →
      (openLibrary ((openLibrary (some h) env).storedAfter) env).promptShown = true) ∧
    (env.pickerAvailable = false →
      (openLibrary ((openLibrary (some h) env).storedAfter) env).fallbackInputClicked = true) := by
  refine ⟨?_, ?_, ?_, ?_, ?_⟩
  · simp [openLibrary, openLibraryWithHandle, hapi, hq, hr]
  · simp [openLibrary, openLibraryWithHandle, hapi, hq, hr]
  · simp [openLibrary, openLibraryWithHandle, hapi, hq, hr]
  · intro hpick
    have hstored : (openLibrary (some h) env).storedAfter = none := by
      simp [openLibrary, openLibraryWithHandle, hapi, hq, hr]
    rw [hstored]
    unfold openLibrary
    rw [hpick]
    match env.pickerOutcome with
    | .abortError => simp
    | .otherError msg => simp
    | .ok h2 => simp [openLibraryWithHandle]; split <;> simp
  · intro hpick
    have hstored : (openLibrary (some h) env).storedAfter = none := by
      simp [openLibrary, openLibraryWithHandle, hapi, hq, hr]
    rw [hstored]
    simp [openLibrary, hpick]

/-- A stored handle that has lost read permission for good. -/
def deniedHandle : DirHandleM :=
  { name := "lib", id := 0, hasPermissionApi := true
    queryPerm := Perm.denied, requestPerm := Perm.denied }

def deniedLibEnv : LibraryEnv :=
  { pickerAvailable := true, pickerOutcome := PickerOutcome.abortError
    fsEnv := [], cachedBooks := [], liveLm := fun _ => none }

theorem permission_denied_recovery_witness :
    (openLibrary (some deniedHandle) deniedLibEnv).scanPerformed = false ∧
    (openLibrary (some deniedHandle) deniedLibEnv).storedAfter = none ∧
    (openLibrary (some deniedHandle) deniedLibEnv).errorShown =
      some "Permission denied for library folder. Please select the folder again." ∧
    (deniedLibEnv.pickerAvailable = true →
      (openLibrary ((openLibrary (some deniedHandle) deniedLibEnv).storedAfter)
        deniedLibEnv).promptShown = true) ∧
    (deniedLibEnv.pickerAvailable = false →
      (openLibrary ((openLibrary (some deniedHandle) deniedLibEnv).storedAfter)
        deniedLibEnv).fallbackInputClicked = true) :=
  permission_denied_recovery deniedHandle deniedLibEnv rfl
    (by decide) (by decide)

/-- Counterexample to claim C6 as stated: in the earlier `openLibrary`
revision the denied re-request throws into the function's own `catch`:
the failure banner is shown and no scan happens, but the stored handle is
*not* cleared, so the system does not behave as if no handle were stored —
the next attempt re-checks the same dead handle instead of prompting. -/
theorem openLibraryMid_retains_denied_handle :
    (openLibraryMid (some deniedHandle) deniedLibEnv).scanPerformed = false ∧
    (openLibraryMid (some deniedHandle) deniedLibEnv).errorShown =
      some "Failed to open library: Read permission was denied for the library directory." ∧
    (openLibraryMid (some deniedHandle) deniedLibEnv).storedAfter = some deniedHandle ∧
    ¬ (openLibraryMid (some deniedHandle) deniedLibEnv).storedAfter = none ∧
    (openLibraryMid ((openLibraryMid (some deniedHandle) deniedLibEnv).storedAfter)
        deniedLibEnv).promptShown = false := by
  refine ⟨?_, ?_, ?_, ?_, ?_⟩ <;> decide

/-! ### Reading session controller (`book.js`)

The viewport and renderer lifecycle are modelled by `ReaderState`:
`book`/`rendition` are the module-level references (identified by a
numeric id), `attached` the renderer instances currently attached to the
viewer element, `controlsEnabled` the shared `disabled` flag of the
prev/next/TOC controls.  `loadBook` is the feature-rich revision (it
calls `cleanupPreviousBook`, which destroys the rendition and resets the
header UI), `loadBookSimple` the plain revision (which only drops the
references and clears the viewer).  Each returns the new state together
with the list of UI events it performed, in order. -/

inductive UiEvent where
  | destroyRendition (id : Nat)
  | clearViewer
  | resetHeaderUi
  | createBook (id : Nat)
  | installRendition (id : Nat)
  | displayContent
  | enableControls
  | disableControls
deriving DecidableEq, Repr

structure ReaderState where
  book : Option Nat
  rendition : Option Nat
  attached : List Nat
  controlsEnabled : Bool
  titleText : String
  pageInputText : String
  totalPagesText : String
  tocHtml : String
  progressVisible : Bool
deriving DecidableEq, Repr

def cleanupPreviousBook (s : ReaderState) : ReaderState × List UiEvent :=
  let destroyEvs := match s.rendition with
    | some r => [UiEvent.destroyRendition r]
    | none => []
  let s1 := match s.rendition with
    | some r => { s with attached := s.attached.erase r }
    | none => s
  let s2 := { s1 with book := none }
  let s3 := { s2 with
    attached := ([] : List Nat)
    titleText := ""
    pageInputText := "1"
    totalPagesText := "1"
    tocHtml := ""
    progressVisible := false }
  (s3, destroyEvs ++ [UiEvent.clearViewer, UiEvent.resetHeaderUi])

def loadBook (s : ReaderState) (newId : Nat) : ReaderState × List UiEvent :=
  let cu := if s.book.isSome && s.rendition.isSome then cleanupPreviousBook s else (s, [])
  let s1 := { cu.1 with book := some newId }
  let s2 := { s1 with rendition := some newId, attached := s1.attached ++ [newId] }
  let s3 := { s2 with controlsEnabled := true }
  (s3, cu.2 ++ [UiEvent.createBook newId, UiEvent.installRendition newId,
    UiEvent.displayContent, UiEvent.enableControls])

def loadBookSimple (s : ReaderState) (newId : Nat) : ReaderState × List UiEvent :=
  let cu := if s.book.isSome then
      ({ s with book := none, rendition := none, attached := [] }, [UiEvent.clearViewer])
    else (s, [])
  let s1 := { cu.1 with book := some newId }
  let s2 := { s1 with rendition := some newId, attached := s1.attached ++ [newId] }
  let s3 := { s2 with controlsEnabled := true }
  (s3, cu.2 ++ [UiEvent.createBook newId, UiEvent.installRendition newId,
    UiEvent.displayContent, UiEvent.enableControls])

/-- Effect of a UI event on the set of renderer instances attached to the
viewer. -/
def applyUiEvent (att : List Nat) (e : UiEvent) : List Nat :=
  match e with
  | .destroyRendition r => att.erase r
  | .clearViewer => []
  | .installRendition r => att ++ [r]
  | _ => att

/-- All intermediate attachment states reached while replaying events. -/
def attachedTrace (att : List Nat) : List UiEvent → List (List Nat)
  | [] => [att]
  | e :: evs => att :: attachedTrace (applyUiEvent att e) evs

/-- Claim C7 (amended): loading a new book over a Ready session first
destroys the previous rendition and clears the viewer, and only then
installs the new rendition, so at every intermediate point at most one
renderer instance is attached to the viewport; the navigation controls,
however, are never disabled during this teardown — teardown resets the
header UI and the enable step simply (re-)enables the controls after the
new book is in place. -/
theorem single_renderer_teardown_before_install (s : ReaderState) (b r newId : Nat)
    (hb : s.book = some b) (hr : s.rendition = some r) (hatt : s.attached = [r]) :
    ((attachedTrace s.attached (loadBook s newId).2).all (fun l => l.length ≤ 1)) = true ∧
    (loadBook s newId).2.get? 0 = some (UiEvent.destroyRendition r) ∧
    (loadBook s newId).2.get? 4 = some (UiEvent.installRendition newId) ∧
    (loadBook s newId).1.attached = [newId] ∧
    (loadBook s newId).1.rendition = some newId ∧
    (loadBook s newId).1.book = some newId ∧
    UiEvent.disableControls ∉ (loadBook s newId).2 ∧
    UiEvent.disableControls ∉ (loadBookSimple s newId).2 := by
  have hload : (loadBook s newId).2 =
      [UiEvent.destroyRendition r, UiEvent.clearViewer, UiEvent.resetHeaderUi,
       UiEvent.createBook newId, UiEvent.installRendition newId,
       UiEvent.displayContent, UiEvent.enableControls] := by
    simp [loadBook, cleanupPreviousBook, hb, hr]
  have hstate : (loadBook s newId).1.attached = [newId] := by
    simp [loadBook, cleanupPreviousBook, hb, hr]
  refine ⟨?_, ?_, ?_, hstate, ?_, ?_, ?_, ?_⟩
  · rw [hload, hatt]
    simp [attachedTrace, applyUiEvent, List.erase_cons_head]
  · rw [hload]; simp
  · rw [hload]; simp
  · simp [loadBook, cleanupPreviousBook, hb, hr]
  · simp [loadBook, cleanupPreviousBook, hb, hr]
  · rw [hload]
    intro hmem
    simp at hmem
  · have hload2 : (loadBookSimple s newId).2 =
        [UiEvent.clearViewer, UiEvent.createBook newId, UiEvent.installRendition newId,
         UiEvent.displayContent, UiEvent.enableControls] := by
      simp [loadBookSimple, hb]
    rw [hload2]
    intro hmem
    simp at hmem

/-- A Ready session: book 1 loaded, its renderer attached, controls on. -/
def readyState : ReaderState :=
  { book := some 1, rendition := some 1, attached := [1], controlsEnabled := true
    titleText := "Old Book", pageInputText := "3", totalPagesText := "10"
    tocHtml := "old-toc", progressVisible := true }

theorem single_renderer_teardown_before_install_witness :
    ((attachedTrace readyState.attached (loadBook readyState 2).2).all
      (fun l => l.length ≤ 1)) = true ∧
    (loadBook readyState 2).2.get? 0 = some (UiEvent.destroyRendition 1) ∧
    (loadBook readyState 2).2.get? 4 = some (UiEvent.installRendition 2) ∧
    (loadBook readyState 2).1.attached = [2] ∧
    (loadBook readyState 2).1.rendition = some 2 ∧
    (loadBook readyState 2).1.book = some 2 ∧
    UiEvent.disableControls ∉ (loadBook readyState 2).2 ∧
    UiEvent.disableControls ∉ (loadBookSimple readyState 2).2 :=
  single_renderer_teardown_before_install readyState 1 1 2 rfl rfl rfl

/-- A second Ready session used only to exhibit the missing
control-disabling step. -/
def readyStateB : ReaderState :=
  { book := some 5, rendition := some 5, attached := [5], controlsEnabled := true
    titleText := "Another Book", pageInputText := "2", totalPagesText := "8"
    tocHtml := "toc-b", progressVisible := false }

/-- Counterexample to claim C7 as stated: the teardown performed before
installing the new renderer destroys the old rendition but never disables
the UI navigation controls — no disable event occurs in either revision
and the controls stay enabled throughout the swap. -/
theorem teardown_never_disables_controls :
    (loadBook readyStateB 6).2.contains (UiEvent.destroyRendition 5) = true ∧
    (loadBook readyStateB 6).2.contains UiEvent.disableControls = false ∧
    (loadBookSimple readyStateB 6).2.contains UiEvent.disableControls = false ∧
    (cleanupPreviousBook readyStateB).1.controlsEnabled = true := by
  refine ⟨?_, ?_, ?_, ?_⟩ <;> decide

/-! ### Opening a selected file (`openBook`, `book.js`)

`openBook` is the feature-rich revision: case-insensitive extension
check, declared-media-type check, and a 100 MB size ceiling, all before
the `FileReader` is created.  `openBookSimple` is the plain revision:
case-sensitive extension check, no size ceiling.  `readStarted` records
whether `readAsArrayBuffer` was reached; the session state is returned
unchanged by the synchronous part in every case. -/

structure JsFile where
  name : String
  mediaType : String
  size : Nat
deriving DecidableEq, Repr

structure OpenBookResult where
  errorsShown : List String
  readStarted : Bool
deriving DecidableEq, Repr

def openBook (fileSel : Option JsFile) (s : ReaderState) : ReaderState × OpenBookResult :=
  match fileSel with
  | none => (s, { errorsShown := [], readStarted := false })
  | some f =>
    if ¬ strEndsWith (strLower f.name) ".epub" = true ∧
        ¬ f.mediaType = "application/epub+zip" then
      (s, { errorsShown := ["Please select a valid EPUB file (.epub extension required)."]
            readStarted := false })
    else if 100 * 1024 * 1024 < f.size then
      (s, { errorsShown := ["File is too large. Please select an EPUB file smaller than 100MB."]
            readStarted := false })
    else
      (s, { errorsShown := [], readStarted := true })

def openBookSimple (fileSel : Option JsFile) (s : ReaderState) :
    ReaderState × OpenBookResult :=
  match fileSel with
  | none => (s, { errorsShown := [], readStarted := false })
  | some f =>
    if ¬ f.mediaType = "application/epub+zip" ∧ ¬ strEndsWith f.name ".epub" = true then
      (s, { errorsShown := ["The selected file is not a valid EPUB file."]
            readStarted := false })
    else
      (s, { errorsShown := [], readStarted := true })

/-- Claim C8 (amended): in the feature-rich `openBook`, a file that has
neither a `.epub` extension (case-insensitively) nor the declared media
type `application/epub+zip`, and likewise any file over the 100 MB
ceiling, is rejected with exactly one validation error before any byte of
the file is read, leaving the session state unchanged; valid small files
proceed to the read with no error.  The plain `openBook` revision also
rejects bad type/extension before any read, but enforces no size ceiling:
it starts reading an oversized `.epub` file. -/
theorem openBook_validation_before_io (f : JsFile) (s : ReaderState) :
    (¬ strEndsWith (strLower f.name) ".epub" = true →
      ¬ f.mediaType = "application/epub+zip" →
      openBook (some f) s =
        (s, { errorsShown := ["Please select a valid EPUB file (.epub extension required)."]
              readStarted := false })) ∧
    ((strEndsWith (strLower f.name) ".epub" = true ∨ f.mediaType = "application/epub+zip") →
      100 * 1024 * 1024 < f.size →
      openBook (some f) s =
        (s, { errorsShown := ["File is too large. Please select an EPUB file smaller than 100MB."]
              readStarted := false })) ∧
    ((strEndsWith (strLower f.name) ".epub" = true ∨ f.mediaType = "application/epub+zip") →
      f.size ≤ 100 * 1024 * 1024 →
      openBook (some f) s = (s, { errorsShown := [], readStarted := true })) ∧
    (¬ f.mediaType = "application/epub+zip" → ¬ strEndsWith f.name ".epub" = true →
      openBookSimple (some f) s =
        (s, { errorsShown := ["The selected file is not a valid EPUB file."]
              readStarted := false })) ∧
    (strEndsWith f.name ".epub" = true →
      openBookSimple (some f) s = (s, { errorsShown := [], readStarted := true })) := by
  refine ⟨?_, ?_, ?_, ?_, ?_⟩
  · intro h1 h2
    simp [openBook, h1, h2]
  · intro h1 h2
    rcases h1 with h1 | h1
    · simp [openBook, h1, h2]
    · simp [openBook, h1, h2]
  · intro h1 h2
    have hns : ¬ 100 * 1024 * 1024 < f.size := by omega
    rcases h1 with h1 | h1
    · simp [openBook, h1, hns]
    · simp [openBook, h1, hns]
  · intro h1 h2
    simp [openBookSimple, h1, h2]
  · intro h1
    simp [openBookSimple, h1]

theorem openBook_validation_before_io_witness :
    openBook (some { name := "slides.pdf", mediaType := "application/pdf", size := 10 })
        readyState =
      (readyState,
        { errorsShown := ["Please select a valid EPUB file (.epub extension required)."]
          readStarted := false }) ∧
    openBook (some { name := "huge.epub", mediaType := "application/epub+zip", size := 200 * 1024 * 1024 }) readyState =
      (readyState,
        { errorsShown := ["File is too large. Please select an EPUB file smaller than 100MB."]
          readStarted := false }) ∧
    openBook (some { name := "ok.EPUB", mediaType := "", size := 1024 }) readyState =
      (readyState, { errorsShown := [], readStarted := true }) :=
  ⟨(openBook_validation_before_io
      { name := "slides.pdf", mediaType := "application/pdf", size := 10 } readyState).1
      (by decide) (by decide),
   (openBook_validation_before_io
      { name := "huge.epub", mediaType := "application/epub+zip", size := 200 * 1024 * 1024 }
      readyState).2.1 (Or.inl (by decide)) (by decide),
   (openBook_validation_before_io
      { name := "ok.EPUB", mediaType := "", size := 1024 } readyState).2.2.1
      (Or.inl (by decide)) (by decide)⟩

/-- An EPUB file twice the documented 100 MB ceiling. -/
def oversizedEpub : JsFile :=
  { name := "big.epub", mediaType := "application/epub+zip", size := 200 * 1024 * 1024 }

/-- Counterexample to claim C8 as stated: the plain `openBook` revision
has no size guard at all — a 200 MB `.epub` passes validation and the
read of its bytes begins with no validation error shown. -/
theorem openBookSimple_no_size_ceiling :
    100 * 1024 * 1024 < oversizedEpub.size ∧
    (openBookSimple (some oversizedEpub) readyStateB).2.readStarted = true ∧
    (openBookSimple (some oversizedEpub) readyStateB).2.errorsShown = [] := by
  refine ⟨?_, ?_, ?_⟩ <;> decide

/-! ### Page navigation (`goToPage`, `book.js`)

`parsedInput` is the result of `parseInt(currentPageInput.value, 10)`,
with `none` for `NaN`.  JavaScript comparisons on `NaN` are false, which
`jsLtB`/`jsGeB` mirror.  The result records the location index handed to
`cfiFromLocation`/`display` (`some idx`; `idx = none` is the `NaN`
index), or `none` when `display` was not called, together with the number
of error banners shown. -/

def jsLtB (v : Option Int) (b : Int) : Bool :=
  match v with
  | none => false
  | some x => decide (x < b)

def jsGeB (v : Option Int) (b : Int) : Bool :=
  match v with
  | none => false
  | some x => decide (b ≤ x)

structure GoToResult where
  displayCalledWith : Option (Option Int)
  errorsShown : Nat
deriving DecidableEq, Repr

def goToPageSimple (ready : Bool) (len : Nat) (parsedInput : Option Int) : GoToResult :=
  if ¬ ready = true then { displayCalledWith := none, errorsShown := 0 }
  else
    let pageNumber := parsedInput.map (fun n => n - 1)
    if jsGeB pageNumber 0 && jsLtB pageNumber (len : Int) then
      { displayCalledWith := some pageNumber, errorsShown := 0 }
    else
      { displayCalledWith := none, errorsShown := 0 }

def goToPage (ready : Bool) (len : Nat) (pageNumberArg : Option Int)
    (parsedInput : Option Int) : GoToResult :=
  if ¬ ready = true then { displayCalledWith := none, errorsShown := 1 }
  else
    let targetPage : Option Int :=
      match pageNumberArg with
      | some n => if n = 0 then parsedInput else some n
      | none => parsedInput
    let pageIndex := targetPage.map (fun n => n - 1)
    if jsLtB pageIndex 0 || jsGeB pageIndex (len : Int) then
      { displayCalledWith := none, errorsShown := 1 }
    else
      { displayCalledWith := some pageIndex, errorsShown := 0 }

/-- Claim C9 (amended): in the plain `goToPage` every out-of-range or
non-numeric input is a silent no-op (display untouched, no error) and a
valid `n` displays `cfiFromLocation (n-1)`.  The feature-rich `goToPage`
displays `cfiFromLocation (n-1)` for valid `n` and leaves the display
untouched for out-of-range numeric `n` — but shows an error banner rather
than staying silent — while a `NaN` input slips through its inverted
range check and reaches `display` with the `NaN`-derived index. -/
theorem goToPage_validation (len : Nat) (n : Int) (parsed : Option Int) :
    goToPageSimple false len parsed = { displayCalledWith := none, errorsShown := 0 } ∧
    goToPageSimple true len none = { displayCalledWith := none, errorsShown := 0 } ∧
    ((n < 1 ∨ (len : Int) < n) →
      goToPageSimple true len (some n) = { displayCalledWith := none, errorsShown := 0 }) ∧
    (1 ≤ n → n ≤ (len : Int) →
      goToPageSimple true len (some n) =
        { displayCalledWith := some (some (n - 1)), errorsShown := 0 }) ∧
    goToPage false len (some n) parsed = { displayCalledWith := none, errorsShown := 1 } ∧
    ((n < 1 ∨ (len : Int) < n) → ¬ n = 0 →
      goToPage true len (some n) parsed = { displayCalledWith := none, errorsShown := 1 }) ∧
    (1 ≤ n → n ≤ (len : Int) →
      goToPage true len (some n) parsed =
        { displayCalledWith := some (some (n - 1)), errorsShown := 0 }) ∧
    goToPage true len none none = { displayCalledWith := some none, errorsShown := 0 } := by
  refine ⟨?_, ?_, ?_, ?_, ?_, ?_, ?_, ?_⟩
  · simp [goToPageSimple]
  · simp [goToPageSimple, jsGeB, jsLtB]
  · intro h
    have h1 : (jsGeB (some (n - 1)) 0 && jsLtB (some (n - 1)) (len : Int)) = false := by
      simp only [jsGeB, jsLtB, Bool.and_eq_false_iff, decide_eq_false_iff_not]
      omega
    simp [goToPageSimple, h1]
  · intro h1 h2
    have h3 : (jsGeB (some (n - 1)) 0 && jsLtB (some (n - 1)) (len : Int)) = true := by
      simp only [jsGeB, jsLtB, Bool.and_eq_true, decide_eq_true_eq]
      omega
    simp [goToPageSimple, h3]
  · simp [goToPage]
  · intro h hn
    have h1 : (jsLtB (some (n - 1)) 0 || jsGeB (some (n - 1)) (len : Int)) = true := by
      simp only [jsLtB, jsGeB, Bool.or_eq_true, decide_eq_true_eq]
      omega
    simp [goToPage, hn, h1]
  · intro h1 h2
    have hn : ¬ n = 0 := by omega
    have h3 : (jsLtB (some (n - 1)) 0 || jsGeB (some (n - 1)) (len : Int)) = false := by
      simp only [jsLtB, jsGeB, Bool.or_eq_false_iff, decide_eq_false_iff_not]
      omega
    simp [goToPage, hn, h3]
  · simp [goToPage, jsLtB, jsGeB]

theorem goToPage_validation_witness :
    goToPageSimple true 10 (some 0) = { displayCalledWith := none, errorsShown := 0 } ∧
    goToPageSimple true 10 (some 3) =
      { displayCalledWith := some (some 2), errorsShown := 0 } ∧
    goToPage true 10 (some 11) (some 11) = { displayCalledWith := none, errorsShown := 1 } ∧
    goToPage true 10 (some 3) none =
      { displayCalledWith := some (some 2), errorsShown := 0 } :=
  ⟨(goToPage_validation 10 0 (some 0)).2.2.1 (Or.inl (by decide)),
   (goToPage_validation 10 3 (some 3)).2.2.2.1 (by decide) (by decide),
   (goToPage_validation 10 11 (some 11)).2.2.2.2.2.1 (Or.inr (by decide)) (by decide),
   (goToPage_validation 10 3 none).2.2.2.2.2.2.1 (by decide) (by decide)⟩

/-- Counterexample to claim C9 as stated: in the feature-rich `goToPage`
an out-of-range page number is not a silent no-op — the display is left
alone but an error banner is shown. -/
theorem goToPage_out_of_range_shows_error :
    goToPage true 5 none (some 0) = { displayCalledWith := none, errorsShown := 1 } ∧
    ¬ (goToPage true 5 none (some 0)).errorsShown = 0 := by
  refine ⟨?_, ?_⟩ <;> decide

end HTMLReader
